import Mathlib

/-!
Shallow embedding of `scripts/unified_voice.py`, the real-time voice
front-end: the rolling pre-buffer, the rejection chain of the wake-word
detection loop, the confidence smoothing and trigger decision, the
recording loop, the stdin command flags, and the continuous-mode
segment pipeline.  Machine floats of the source are modelled by exact
rationals; comparisons of a square root against a nonnegative constant
are stated on the squares, which is an exact reformulation.  The Silero
VAD model, the wake-word classifier and the librosa resampling/STFT
routines are external collaborators of the script and enter the
embedding as oracle parameters.
-/

/-- Last `cap` elements of a list, in order: the content of a Python
`deque` with `maxlen = cap` after appending the elements of `l` one by
one. -/
def lastN {α : Type} (cap : Nat) (l : List α) : List α :=
  l.drop (l.length - cap)

/-- One bounded-deque append: add `c` on the right and evict from the
left beyond capacity.  Source: `pre_buffer = deque(maxlen=pre_buffer_size)`
(line 66) and `CONFIDENCE_SMOOTHING_WINDOW = deque(maxlen=CONSECUTIVE_DETECTIONS_REQUIRED)`
(line 77). -/
def dequeAppend {α : Type} (cap : Nat) (w : List α) (c : α) : List α :=
  lastN cap (w ++ [c])

/-- `pre_buffer.extend(audio_chunk)` (line 507): push every sample of
`xs`, oldest first, into the bounded deque `buf`. -/
def pushAll {α : Type} (cap : Nat) (buf : List α) (xs : List α) : List α :=
  xs.foldl (dequeAppend cap) buf

/-- `pre_buffer.clear()` (lines 499, 642, 658). -/
def clearBuffer {α : Type} (_ : List α) : List α := []

theorem length_lastN {α : Type} (cap : Nat) (l : List α) :
    (lastN cap l).length = min l.length cap := by
  simp [lastN]
  omega

theorem lastN_of_le {α : Type} (cap : Nat) (l : List α) (h : l.length ≤ cap) :
    lastN cap l = l := by
  simp [lastN, Nat.sub_eq_zero_of_le h]

theorem lastN_suffix {α : Type} (cap : Nat) (l : List α) :
    (lastN cap l).IsSuffix l :=
  List.drop_suffix _ _

theorem lastN_append_of_le {α : Type} (cap : Nat) (a b : List α)
    (h : cap ≤ b.length) : lastN cap (a ++ b) = lastN cap b := by
  unfold lastN
  rw [List.length_append, Nat.add_sub_assoc h, List.drop_append]

theorem lastN_lastN_append {α : Type} (cap : Nat) (l xs : List α) :
    lastN cap (lastN cap l ++ xs) = lastN cap (l ++ xs) := by
  rcases le_or_lt l.length cap with h | h
  · rw [lastN_of_le cap l h]
  · have hsplit : l = l.take (l.length - cap) ++ lastN cap l :=
      (List.take_append_drop (l.length - cap) l).symm
    have hlen : cap ≤ (lastN cap l ++ xs).length := by
      rw [List.length_append, length_lastN]
      omega
    calc lastN cap (lastN cap l ++ xs)
        = lastN cap (l.take (l.length - cap) ++ (lastN cap l ++ xs)) :=
          (lastN_append_of_le cap _ _ hlen).symm
      _ = lastN cap (l ++ xs) := by rw [← List.append_assoc, ← hsplit]

theorem dequeAppend_eq_lastN {α : Type} (cap : Nat) (w : List α) (c : α) :
    dequeAppend cap w c = lastN cap (w ++ [c]) := rfl

/-- The bounded deque after pushing `xs` holds exactly the last `cap`
elements of `buf ++ xs`. -/
theorem pushAll_eq_lastN {α : Type} (cap : Nat) (buf xs : List α)
    (h : buf.length ≤ cap) : pushAll cap buf xs = lastN cap (buf ++ xs) := by
  induction xs generalizing buf with
  | nil => simp [pushAll, lastN_of_le cap buf h]
  | cons x xs ih =>
    have hstep : pushAll cap buf (x :: xs) = pushAll cap (dequeAppend cap buf x) xs := rfl
    have hlen : (dequeAppend cap buf x).length ≤ cap := by
      rw [dequeAppend_eq_lastN, length_lastN]
      omega
    rw [hstep, ih _ hlen, dequeAppend_eq_lastN, lastN_lastN_append]
    simp

/-- C3: RollingPreBuffer invariant.  After pushing any sample sequence
`xs` into the empty bounded buffer, it holds exactly
`min (totalPushed) capacity` samples, namely the most recently pushed
ones in push order (the suffix `lastN cap xs` of the pushed stream);
eviction is silent (`pushAll` is total, no error value exists).
Clearing and then pushing fewer than capacity samples yields exactly
those samples. -/
theorem C3_rolling_pre_buffer_invariant :
    (∀ (cap : Nat) (xs : List Int),
      pushAll cap [] xs = lastN cap xs ∧
      (pushAll cap [] xs).length = min xs.length cap ∧
      (pushAll cap [] xs).IsSuffix xs) ∧
    (∀ (cap : Nat) (buf xs : List Int), xs.length ≤ cap →
      pushAll cap (clearBuffer buf) xs = xs) := by
  constructor
  · intro cap xs
    have h : pushAll cap [] xs = lastN cap xs := by
      simpa using pushAll_eq_lastN cap [] xs (by simp)
    exact ⟨h, by rw [h, length_lastN], by rw [h]; exact lastN_suffix cap xs⟩
  · intro cap buf xs hxs
    have h : pushAll cap [] xs = lastN cap xs := by
      simpa using pushAll_eq_lastN cap [] xs (by simp)
    simpa [clearBuffer, h] using lastN_of_le cap xs hxs

/-- Witness for C3 at concrete inputs: capacity 3, five pushed samples
keep the last three; clear then two pushes keep exactly those two. -/
theorem C3_rolling_pre_buffer_invariant_witness :
    (pushAll 3 ([] : List Int) [1, 2, 3, 4, 5] = lastN 3 [1, 2, 3, 4, 5] ∧
      (pushAll 3 ([] : List Int) [1, 2, 3, 4, 5]).length = min ([1, 2, 3, 4, 5] : List Int).length 3 ∧
      (pushAll 3 ([] : List Int) [1, 2, 3, 4, 5]).IsSuffix [1, 2, 3, 4, 5]) ∧
    pushAll 3 (clearBuffer ([9] : List Int)) [7, 8] = [7, 8] :=
  ⟨C3_rolling_pre_buffer_invariant.1 3 [1, 2, 3, 4, 5],
   C3_rolling_pre_buffer_invariant.2 3 [9] [7, 8] (by decide)⟩

/-! Configuration constants of `unified_voice.py` (lines 56-77).  The
rationals stand for the Python floats exactly. -/

/-- `RATE = 48000` (line 57). -/
def RATE : Nat := 48000

/-- `CHUNK = 1024` (line 58). -/
def CHUNK : Nat := 1024

/-- `pre_buffer_size = int(RATE * PRE_BUFFER_DURATION)` with
`PRE_BUFFER_DURATION = 1.5`, so 72000 samples (line 65). -/
def pre_buffer_size : Nat := 72000

/-- `int((MAX_RECORDING_DURATION * RATE) / CHUNK)` with
`MAX_RECORDING_DURATION = 15.0`: `int(703.125) = 703` (line 449). -/
def max_chunks : Nat := 703

/-- `SILENCE_CHUNKS_THRESHOLD = int((SILENCE_DURATION * RATE) / CHUNK)`
for the wake-word mode value `SILENCE_DURATION = 1.5`:
`int(70.3125) = 70` (lines 61, 69). -/
def SILENCE_CHUNKS_THRESHOLD_wake : Nat := 70

/-- `SILENCE_CHUNKS_THRESHOLD` for always-listening mode
(`SILENCE_DURATION = 0.8`): `int(37.5) = 37` (lines 61, 69). -/
def SILENCE_CHUNKS_THRESHOLD_always : Nat := 37

/-- `HIGH_CONFIDENCE_THRESHOLD = 0.95` (line 74). -/
def HIGH_CONFIDENCE_THRESHOLD : ℚ := 95/100

/-- `MEDIUM_CONFIDENCE_THRESHOLD = 0.90` (line 75). -/
def MEDIUM_CONFIDENCE_THRESHOLD : ℚ := 90/100

/-- `CONSECUTIVE_DETECTIONS_REQUIRED = 3` (line 76). -/
def CONSECUTIVE_DETECTIONS_REQUIRED : Nat := 3

/-- One step of the confidence smoothing and trigger decision applied to
a new classifier confidence `c`, lines 637-664 of the main loop.  Input
`w` is the current content of `CONFIDENCE_SMOOTHING_WINDOW` (oldest
first); output is the new window content together with the reported
confidence when a trigger fires (`prediction` on the immediate path,
the window mean on the consecutive path). -/
def smootherStep (w : List ℚ) (c : ℚ) : List ℚ × Option ℚ :=
  if HIGH_CONFIDENCE_THRESHOLD ≤ c then ([], some c)
  else if MEDIUM_CONFIDENCE_THRESHOLD ≤ c then
    let w2 := dequeAppend CONSECUTIVE_DETECTIONS_REQUIRED w c
    if CONSECUTIVE_DETECTIONS_REQUIRED ≤ w2.length then
      let avg := w2.sum / (w2.length : ℚ)
      if MEDIUM_CONFIDENCE_THRESHOLD ≤ avg then ([], some avg) else (w2, none)
    else (w2, none)
  else ([], none)

/-- Run the smoothing decision over a confidence sequence, returning the
final window and the per-sample trigger outcomes. -/
def runSmoother (w : List ℚ) : List ℚ → List ℚ × List (Option ℚ)
  | [] => (w, [])
  | c :: cs =>
    let s := smootherStep w c
    let r := runSmoother s.1 cs
    (r.1, s.2 :: r.2)

/-- C1: ConfidenceSmoother decision rule.  (i) The window never exceeds
its capacity.  (ii) A sample at or above the high threshold triggers
immediately, reporting the sample itself and clearing the window.
(iii) A medium-band sample is appended to the bounded FIFO; a trigger
fires, reporting the FIFO mean and clearing the FIFO, exactly when the
FIFO is full and its mean is at least the medium threshold; otherwise
the appended window is kept.  (iv) A sample below the medium threshold
clears the window without a trigger.  (v) For the sequence `[0.96]` a
trigger fires on the first sample; for `[0.91, 0.91, 0.91]` a trigger
fires exactly once, after the third sample. -/
theorem C1_confidence_smoother_decision_rule :
    (∀ (w : List ℚ) (c : ℚ),
      (smootherStep w c).1.length ≤ CONSECUTIVE_DETECTIONS_REQUIRED) ∧
    (∀ (w : List ℚ) (c : ℚ), HIGH_CONFIDENCE_THRESHOLD ≤ c →
      smootherStep w c = ([], some c)) ∧
    (∀ (w : List ℚ) (c : ℚ), MEDIUM_CONFIDENCE_THRESHOLD ≤ c →
      c < HIGH_CONFIDENCE_THRESHOLD →
      w.length ≤ CONSECUTIVE_DETECTIONS_REQUIRED →
      smootherStep w c =
        (if (dequeAppend CONSECUTIVE_DETECTIONS_REQUIRED w c).length =
              CONSECUTIVE_DETECTIONS_REQUIRED ∧
            MEDIUM_CONFIDENCE_THRESHOLD ≤
              (dequeAppend CONSECUTIVE_DETECTIONS_REQUIRED w c).sum /
                ((dequeAppend CONSECUTIVE_DETECTIONS_REQUIRED w c).length : ℚ)
          then ([], some ((dequeAppend CONSECUTIVE_DETECTIONS_REQUIRED w c).sum /
                ((dequeAppend CONSECUTIVE_DETECTIONS_REQUIRED w c).length : ℚ)))
          else (dequeAppend CONSECUTIVE_DETECTIONS_REQUIRED w c, none))) ∧
    (∀ (w : List ℚ) (c : ℚ), c < MEDIUM_CONFIDENCE_THRESHOLD →
      smootherStep w c = ([], none)) ∧
    runSmoother [] [96/100] = ([], [some (96/100)]) ∧
    runSmoother [] [91/100, 91/100, 91/100] = ([], [none, none, some (91/100)]) := by
  refine ⟨?_, ?_, ?_, ?_,
    by norm_num [runSmoother, smootherStep, dequeAppend, lastN,
      HIGH_CONFIDENCE_THRESHOLD, MEDIUM_CONFIDENCE_THRESHOLD,
      CONSECUTIVE_DETECTIONS_REQUIRED],
    by norm_num [runSmoother, smootherStep, dequeAppend, lastN,
      HIGH_CONFIDENCE_THRESHOLD, MEDIUM_CONFIDENCE_THRESHOLD,
      CONSECUTIVE_DETECTIONS_REQUIRED]⟩
  · intro w c
    have hlen : (dequeAppend CONSECUTIVE_DETECTIONS_REQUIRED w c).length ≤
        CONSECUTIVE_DETECTIONS_REQUIRED := by
      rw [dequeAppend_eq_lastN, length_lastN]; omega
    simp only [smootherStep]
    split_ifs <;> simp [hlen]
  · intro w c hc
    unfold smootherStep
    rw [if_pos hc]
  · intro w c hmed hhigh hwlen
    have hnothigh : ¬ HIGH_CONFIDENCE_THRESHOLD ≤ c := not_le.mpr hhigh
    have hlen : (dequeAppend CONSECUTIVE_DETECTIONS_REQUIRED w c).length ≤
        CONSECUTIVE_DETECTIONS_REQUIRED := by
      rw [dequeAppend_eq_lastN, length_lastN]; omega
    have hfull : CONSECUTIVE_DETECTIONS_REQUIRED ≤
          (dequeAppend CONSECUTIVE_DETECTIONS_REQUIRED w c).length ↔
        (dequeAppend CONSECUTIVE_DETECTIONS_REQUIRED w c).length =
          CONSECUTIVE_DETECTIONS_REQUIRED := by omega
    unfold smootherStep
    rw [if_neg hnothigh, if_pos hmed]
    by_cases hf : (dequeAppend CONSECUTIVE_DETECTIONS_REQUIRED w c).length =
        CONSECUTIVE_DETECTIONS_REQUIRED
    · rw [if_pos (hfull.mpr hf)]
      by_cases hm : MEDIUM_CONFIDENCE_THRESHOLD ≤
          (dequeAppend CONSECUTIVE_DETECTIONS_REQUIRED w c).sum /
            ((dequeAppend CONSECUTIVE_DETECTIONS_REQUIRED w c).length : ℚ)
      · rw [if_pos hm, if_pos ⟨hf, hm⟩]
      · rw [if_neg hm, if_neg (by tauto)]
    · rw [if_neg (fun h => hf (hfull.mp h)), if_neg (by tauto)]
  · intro w c hc
    unfold smootherStep
    rw [if_neg (not_le.mpr (lt_of_lt_of_le hc (by norm_num [MEDIUM_CONFIDENCE_THRESHOLD, HIGH_CONFIDENCE_THRESHOLD]))),
      if_neg (not_le.mpr hc)]

/-- Witness for C1: the high path at `0.96`, the medium path at a full
window of `0.91` samples, and the low path at `0.50`, all at concrete
inputs. -/
theorem C1_confidence_smoother_decision_rule_witness :
    smootherStep [] (96/100) = ([], some (96/100)) ∧
    smootherStep [91/100, 91/100] (91/100) = ([], some (91/100)) ∧
    smootherStep [91/100] (50/100) = ([], none) := by
  refine ⟨C1_confidence_smoother_decision_rule.2.1 [] (96/100) (by norm_num [HIGH_CONFIDENCE_THRESHOLD]), ?_, C1_confidence_smoother_decision_rule.2.2.2.1 [91/100] (50/100) (by norm_num [MEDIUM_CONFIDENCE_THRESHOLD])⟩
  have h := C1_confidence_smoother_decision_rule.2.2.1 [91/100, 91/100] (91/100)
    (by norm_num [MEDIUM_CONFIDENCE_THRESHOLD])
    (by norm_num [HIGH_CONFIDENCE_THRESHOLD])
    (by simp [CONSECUTIVE_DETECTIONS_REQUIRED])
  exact h.trans (by norm_num [dequeAppend, lastN, CONSECUTIVE_DETECTIONS_REQUIRED,
    MEDIUM_CONFIDENCE_THRESHOLD])

/-! The recording loop `record_command()` (lines 436-485). -/

/-- Python exceptions raised by the embedded code. -/
inductive PyError : Type
  | nameErrorSilenceThreshold
deriving DecidableEq

/-- The cause that ends the recording loop: the manual-stop branch
(line 454), the prolonged-silence branch (line 475), or exhaustion of
the `recording_chunks < max_chunks` loop condition (line 452). -/
inductive StopKind : Type
  | manual
  | silence
  | maxDuration
deriving DecidableEq

/-- `calculate_rms(audio_chunk)` (lines 415-423): `int(sqrt(mean(x**2)))`
over the raw 16-bit samples, with `0` for an empty chunk (also for a
nan/inf result, which the rational model cannot produce).  For a
rational `q ≥ 0`, `int(sqrt(q))` equals `Nat.sqrt ⌊q⌋`. -/
def calcRms (frame : List Int) : Nat :=
  if frame.length = 0 then 0
  else Nat.sqrt (((frame.map (fun (s : Int) => (s : ℚ)^2)).sum / (frame.length : ℚ)).floor.toNat)

/-- The silence comparison `rms < SILENCE_THRESHOLD` at line 466.  The
name `SILENCE_THRESHOLD` is defined nowhere in `unified_voice.py` (it
exists only in the separate script `scripts/record_command.py`), so
evaluating the comparison raises `NameError`. -/
def silenceCompare (_rms : Nat) : Except PyError Bool :=
  .error .nameErrorSilenceThreshold

/-- The body of the `while recording_chunks < max_chunks` loop of
`record_command` (lines 452-477), with fuel `max_chunks - recording_chunks`.
`stops i` is the value of the `stop_recording` flag observed at the top
of iteration `i`; `frames i` is the chunk that `stream.read` returns at
iteration `i`; `acc` is the flat sample content of `frames`; `sil` is
`silence_chunks`. -/
def recordAux (silThr : Nat) (stops : Nat → Bool) (frames : Nat → List Int) :
    Nat → Nat → List Int → Nat → Except PyError (List Int × StopKind)
  | 0, _, acc, _ => .ok (acc, .maxDuration)
  | fuel + 1, i, acc, sil =>
    if stops i then .ok (acc, .manual)
    else
      let frame := frames i
      let acc2 := acc ++ frame
      let rms := calcRms frame
      match silenceCompare rms with
      | .error e => .error e
      | .ok b =>
        let sil2 := if b then sil + 1 else 0
        if silThr ≤ sil2 then .ok (acc2, .silence)
        else recordAux silThr stops frames fuel (i + 1) acc2 sil2

/-- `record_command()` (lines 436-485): the segment starts as the
pre-buffer content at trigger time (`for chunk in pre_buffer: frames.append(...)`),
then the loop appends the frames it reads; on exit the accumulated
segment is saved.  The result is the finalized segment and the exit
cause, or the exception that escaped the loop. -/
def recordRun (silThr : Nat) (stops : Nat → Bool) (frames : Nat → List Int)
    (preBuf : List Int) : Except PyError (List Int × StopKind) :=
  recordAux silThr stops frames max_chunks 0 preBuf 0

/-- One unfolding of the loop: an iteration either takes the manual-stop
branch before reading, or reads a frame and then raises `NameError` at
the silence comparison. -/
theorem recordAux_succ (silThr : Nat) (stops : Nat → Bool) (frames : Nat → List Int)
    (fuel i : Nat) (acc : List Int) (sil : Nat) :
    recordAux silThr stops frames (fuel + 1) i acc sil =
      if stops i then .ok (acc, .manual)
      else .error .nameErrorSilenceThreshold := by
  cases h : stops i <;> simp [recordAux, h, silenceCompare]

/-- C2: the claimed silence-counter stop condition never executes: with
the stop flag unset, the very first recorded frame (here 1024 zero
samples, after an empty pre-buffer) makes `record_command` raise
`NameError` at the silence comparison, because `SILENCE_THRESHOLD` is
undefined in `unified_voice.py`; no silence counting and no
silence-based stop ever happens. -/
theorem C2_record_silence_check_raises :
    recordRun SILENCE_CHUNKS_THRESHOLD_wake (fun _ => false)
      (fun _ => List.replicate 1024 0) [] =
      .error .nameErrorSilenceThreshold := by
  have h : max_chunks = 702 + 1 := rfl
  rw [recordRun, h, recordAux_succ]
  simp

/-- C5: recording completeness degenerates.  The only runs of
`record_command` that finalize a segment are those whose stop flag is
already set when the loop is first entered; the finalized segment then
equals the pre-buffer alone.  No segment containing any recorded frame
is ever finalized, because reading a frame raises `NameError` at the
silence comparison. -/
theorem C5_no_recorded_frame_is_finalized
    (silThr : Nat) (stops : Nat → Bool) (frames : Nat → List Int)
    (preBuf seg : List Int) (k : StopKind)
    (h : recordRun silThr stops frames preBuf = .ok (seg, k)) :
    seg = preBuf ∧ k = .manual ∧ stops 0 = true := by
  have hm : max_chunks = 702 + 1 := rfl
  rw [recordRun, hm, recordAux_succ] at h
  by_cases hs : stops 0
  · rw [if_pos hs] at h
    obtain ⟨h1, h2⟩ := Prod.mk.injEq _ _ _ _ ▸ Except.ok.injEq _ _ ▸ h
    exact ⟨h1.symm, h2.symm, hs⟩
  · rw [if_neg hs] at h
    exact absurd h (by simp)

/-- Witness for C5: a run whose stop flag is set at entry finalizes the
pre-buffer `[1, 2]` alone via the manual branch. -/
theorem C5_no_recorded_frame_is_finalized_witness :
    ([1, 2] : List Int) = [1, 2] ∧ StopKind.manual = StopKind.manual ∧
      (fun _ : Nat => true) 0 = true :=
  C5_no_recorded_frame_is_finalized SILENCE_CHUNKS_THRESHOLD_wake
    (fun _ => true) (fun _ => []) [1, 2] [1, 2] .manual (by rfl)

/-! The stdin command listener `stdin_listener` (lines 129-148). -/

/-- The two cross-thread flags `record_next` and `stop_recording`
(lines 120-121). -/
structure Flags : Type where
  recordNext : Bool
  stopRecording : Bool
deriving DecidableEq

/-- One stdin line handled by `stdin_listener` (lines 140-146):
`RECORD_NOW` sets `record_next` and clears `stop_recording`;
`STOP_RECORDING` sets `stop_recording`; any other line only produces a
debug print. -/
def handleLine (f : Flags) (line : String) : Flags :=
  if line = "RECORD_NOW" then { recordNext := true, stopRecording := false }
  else if line = "STOP_RECORDING" then { f with stopRecording := true }
  else f

/-- The listener thread processing a sequence of stdin lines in order. -/
def processLines (f : Flags) (ls : List String) : Flags :=
  ls.foldl handleLine f

/-- C10: consuming `RECORD_NOW` sets the start flag and clears the stop
flag in the same handler, for every prior flag state; hence after any
line sequence ending in `RECORD_NOW` the stop flag is false — a
`STOP_RECORDING` received earlier and not yet consumed by the audio
thread is discarded.  Moreover the recording loop exits through its
manual-stop branch only when the stop flag it observes at its first
check is true, so the discarded command cannot stop the recording
started by that `RECORD_NOW`. -/
theorem C10_record_now_clears_pending_stop :
    (∀ f : Flags, handleLine f "RECORD_NOW" = ⟨true, false⟩) ∧
    (∀ (f : Flags) (pre : List String),
      processLines f (pre ++ ["RECORD_NOW"]) = ⟨true, false⟩) ∧
    (∀ (silThr : Nat) (stops : Nat → Bool) (frames : Nat → List Int)
        (preBuf seg : List Int),
      recordRun silThr stops frames preBuf = .ok (seg, .manual) →
      stops 0 = true) := by
  refine ⟨fun f => rfl, ?_, ?_⟩
  · intro f pre
    rw [processLines, List.foldl_append]
    rfl
  · intro silThr stops frames preBuf seg h
    have hm : max_chunks = 702 + 1 := rfl
    rw [recordRun, hm, recordAux_succ] at h
    by_cases hs : stops 0
    · exact hs
    · rw [if_neg hs] at h
      exact absurd h (by simp)

/-- Witness for C10: handling `STOP_RECORDING` and then `RECORD_NOW`
leaves the stop flag cleared, and a run stopped manually had its stop
flag set at the first check. -/
theorem C10_record_now_clears_pending_stop_witness :
    processLines ⟨false, false⟩ (["STOP_RECORDING"] ++ ["RECORD_NOW"]) = ⟨true, false⟩ ∧
    (fun _ : Nat => true) 0 = true :=
  ⟨C10_record_now_clears_pending_stop.2.1 ⟨false, false⟩ ["STOP_RECORDING"],
   C10_record_now_clears_pending_stop.2.2 SILENCE_CHUNKS_THRESHOLD_wake
     (fun _ => true) (fun _ => []) [1, 2] [1, 2] (by rfl)⟩

/-! The wake-word detection portion of the main loop (lines 503-664),
for the default mode (`record_next` unset, `always_listening` and
`no_wake_word` false).  The librosa resampling, the librosa spectral
stages and the keras classifier are external numeric collaborators and
are passed as oracles that may also raise, as any Python call may. -/

/-- Mean of the squares of the amplitude-normalized samples
(`audio = x / 32768.0`).  For `t ≥ 0`, `rms(x) < t` is equivalent to
`meanSqNorm x < t^2`, so the two RMS gates below compare squares; this
is an exact restatement of the float comparisons on the nonnegative
square root. -/
def meanSqNorm (xs : List Int) : ℚ :=
  ((xs.map (fun (s : Int) => ((s : ℚ) / 32768)^2)).sum) / (xs.length : ℚ)

/-- `is_silent(audio_data, threshold=0.01)` (lines 237-241):
`rms < 0.01`, stated as `rms^2 < 0.0001`. -/
def is_silent (xs : List Int) : Bool :=
  decide (meanSqNorm xs < 1/10000)

/-- `has_sufficient_energy(audio_data, threshold=0.04)` (lines 244-252):
`rms >= 0.04`, stated as `rms^2 >= 0.0016`. -/
def has_sufficient_energy (xs : List Int) : Bool :=
  decide (16/10000 ≤ meanSqNorm xs)

/-- The mutable state that the detection loop carries across frames:
`frame_count`, `cooldown_frames`, `CONFIDENCE_SMOOTHING_WINDOW` and
`pre_buffer`. -/
structure DetectState : Type where
  frameCount : Nat
  cooldown : Nat
  window : List ℚ
  preBuf : List Int
deriving DecidableEq

/-- External stages invoked by the loop: `downsample_for_detection`
(librosa resample), `is_vibration_sound` and `has_speech_characteristics`
(librosa STFT heuristics), `model.predict` (the wake-word classifier)
and the `record_command()` call performed on a trigger.  Each may raise
an exception of type `ε`. -/
structure StageFns (ε : Type) : Type where
  downsample : List Int → Except ε (List ℚ)
  isVib : List ℚ → Except ε Bool
  speechChars : List ℚ → Except ε Bool
  predict : List ℚ → Except ε ℚ
  record : Unit → Except ε Unit

/-- A protocol event printed by the detection loop: the `DETECTED:` line
of lines 639 (immediate path, `consecutive = false`) and 655
(consecutive path, `consecutive = true`). -/
inductive OutEvent : Type
  | detected (conf : ℚ) (consecutive : Bool)
deriving DecidableEq

/-- The trigger decision on a classifier prediction `c` (lines 637-664),
given the already-updated cooldown `cd`, the smoothing window `w` and
the pre-buffer content `pb`.  On a trigger the `DETECTED:` line is
printed first, then the cooldown is armed, `record_command()` runs, and
the pre-buffer, frame counter and smoothing window are cleared. -/
def triggerDecision {ε : Type} (o : StageFns ε) (cd : Nat) (w : List ℚ)
    (pb : List Int) (c : ℚ) : List OutEvent × Except ε DetectState :=
  if HIGH_CONFIDENCE_THRESHOLD ≤ c then
    match o.record () with
    | .error e => ([.detected c false], .error e)
    | .ok _ => ([.detected c false], .ok ⟨0, 10, [], []⟩)
  else if MEDIUM_CONFIDENCE_THRESHOLD ≤ c then
    let w2 := dequeAppend CONSECUTIVE_DETECTIONS_REQUIRED w c
    if CONSECUTIVE_DETECTIONS_REQUIRED ≤ w2.length then
      let avg := w2.sum / (w2.length : ℚ)
      if MEDIUM_CONFIDENCE_THRESHOLD ≤ avg then
        match o.record () with
        | .error e => ([.detected avg true], .error e)
        | .ok _ => ([.detected avg true], .ok ⟨0, 10, [], []⟩)
      else ([], .ok ⟨0, cd, w2, pb⟩)
    else ([], .ok ⟨0, cd, w2, pb⟩)
  else ([], .ok ⟨0, cd, [], pb⟩)

/-- The rejection chain and scoring run when the detection gate opens
(lines 609-664): silence gate, energy gate, vibration-tone rejection,
speech-likeness gate — each rejecting stage clears the smoothing window
and continues with the next frame — then feature extraction, scoring
and the trigger decision. -/
def detectCheck {ε : Type} (o : StageFns ε) (cd : Nat) (w : List ℚ)
    (pb : List Int) : List OutEvent × Except ε DetectState :=
  if is_silent pb then ([], .ok ⟨0, cd, [], pb⟩)
  else if ¬ has_sufficient_energy pb then ([], .ok ⟨0, cd, [], pb⟩)
  else
    match o.downsample pb with
    | .error e => ([], .error e)
    | .ok a16 =>
      match o.isVib a16 with
      | .error e => ([], .error e)
      | .ok vib =>
        if vib then ([], .ok ⟨0, cd, [], pb⟩)
        else
          match o.speechChars a16 with
          | .error e => ([], .error e)
          | .ok sc =>
            if ¬ sc then ([], .ok ⟨0, cd, [], pb⟩)
            else
              match o.predict a16 with
              | .error e => ([], .error e)
              | .ok c => triggerDecision o cd w pb c

/-- One iteration of the main loop in wake-word mode (lines 503-664):
push the frame into the pre-buffer; decrement the cooldown; every 8th
frame with a full pre-buffer and no cooldown, run the rejection chain
and the trigger decision.  Output: the lines printed during the
iteration, and the next state or the exception that escaped it. -/
def detectIter {ε : Type} (o : StageFns ε) (st : DetectState) (frame : List Int) :
    List OutEvent × Except ε DetectState :=
  let pb := pushAll pre_buffer_size st.preBuf frame
  let cd := if 0 < st.cooldown then st.cooldown - 1 else st.cooldown
  let fc := st.frameCount + 1
  if 8 ≤ fc ∧ pre_buffer_size ≤ pb.length ∧ cd = 0 then
    detectCheck o cd st.window pb
  else ([], .ok ⟨fc, cd, st.window, pb⟩)

/-- The `try: while True:` capture loop driving `detectIter` over a
frame sequence.  Only `KeyboardInterrupt` is handled (line 666); any
other exception escaping an iteration propagates, ending the loop with
the frames after it unprocessed. -/
def detectRun {ε : Type} (o : StageFns ε) (st : DetectState) :
    List (List Int) → List OutEvent × Except ε DetectState
  | [] => ([], .ok st)
  | f :: fs =>
    match detectIter o st f with
    | (ev, .error e) => (ev, .error e)
    | (ev, .ok st2) =>
      let r := detectRun o st2 fs
      (ev ++ r.1, r.2)

/-! Concrete frames and states used to exercise the loop.  A full
pre-buffer of constant amplitude 2000 passes both RMS gates
(`(2000/32768)^2 = 0.0037... ≥ 0.0016`); a zero buffer is silent. -/

/-- One 1024-sample chunk of constant amplitude 2000. -/
def frameLoud : List Int := List.replicate 1024 2000

/-- A full pre-buffer of constant amplitude 2000. -/
def bufLoud : List Int := List.replicate 72000 2000

/-- A loop state about to run the detection gate on `bufLoud`. -/
def stLoud : DetectState := ⟨7, 0, [], bufLoud⟩

/-- One 1024-sample chunk of silence. -/
def frameZero : List Int := List.replicate 1024 0

/-- A full pre-buffer of silence. -/
def bufZero : List Int := List.replicate 72000 0

/-- A loop state about to run the detection gate on `bufZero`. -/
def stZero : DetectState := ⟨7, 0, [], bufZero⟩

/-- Oracles whose speech-likeness stage raises an exception. -/
def oCrash : StageFns String :=
  { downsample := fun _ => .ok [], isVib := fun _ => .ok false,
    speechChars := fun _ => .error "stage exception",
    predict := fun _ => .ok 0, record := fun _ => .ok () }

/-- Oracles that accept every stage and score `0.96`. -/
def oTrig : StageFns String :=
  { downsample := fun _ => .ok [], isVib := fun _ => .ok false,
    speechChars := fun _ => .ok true,
    predict := fun _ => .ok (96/100), record := fun _ => .ok () }

theorem drop_replicate_eq (n k : Nat) (v : Int) :
    (List.replicate n v).drop k = List.replicate (n - k) v := by
  induction k generalizing n with
  | zero => simp
  | succ k ih =>
    cases n with
    | zero => simp
    | succ n =>
      rw [Nat.succ_sub_succ]
      exact ih n

theorem pushAll_replicate_full (v : Int) :
    pushAll pre_buffer_size (List.replicate 72000 v) (List.replicate 1024 v) =
      List.replicate 72000 v := by
  rw [pushAll_eq_lastN pre_buffer_size (List.replicate 72000 v) (List.replicate 1024 v)
      (show (List.replicate 72000 v).length ≤ pre_buffer_size from
        le_of_eq (List.length_replicate 72000 v)),
    ← List.replicate_add]
  unfold lastN
  rw [List.length_replicate, drop_replicate_eq]
  congr 1

theorem meanSqNorm_replicate (n : Nat) (v : Int) (h : n ≠ 0) :
    meanSqNorm (List.replicate n v) = ((v : ℚ)/32768)^2 := by
  have hn : (n : ℚ) ≠ 0 := Nat.cast_ne_zero.mpr h
  unfold meanSqNorm
  rw [List.map_replicate, List.sum_replicate, List.length_replicate, nsmul_eq_mul,
    mul_comm, mul_div_assoc, div_self hn, mul_one]

theorem pushAll_bufLoud : pushAll pre_buffer_size bufLoud frameLoud = bufLoud :=
  pushAll_replicate_full 2000

theorem pushAll_bufZero : pushAll pre_buffer_size bufZero frameZero = bufZero :=
  pushAll_replicate_full 0

theorem length_bufLoud : bufLoud.length = 72000 :=
  List.length_replicate 72000 2000

theorem length_bufZero : bufZero.length = 72000 :=
  List.length_replicate 72000 0

theorem full_bufLoud : pre_buffer_size ≤ bufLoud.length :=
  le_of_eq length_bufLoud.symm

theorem full_bufZero : pre_buffer_size ≤ bufZero.length :=
  le_of_eq length_bufZero.symm

theorem is_silent_bufLoud : is_silent bufLoud = false := by
  unfold is_silent
  rw [show bufLoud = List.replicate 72000 2000 from rfl,
    meanSqNorm_replicate 72000 2000 (by norm_num)]
  simp only [decide_eq_false_iff_not, not_lt]
  norm_num

theorem energy_bufLoud : has_sufficient_energy bufLoud = true := by
  unfold has_sufficient_energy
  rw [show bufLoud = List.replicate 72000 2000 from rfl,
    meanSqNorm_replicate 72000 2000 (by norm_num)]
  simp only [decide_eq_true_eq]
  norm_num

theorem is_silent_bufZero : is_silent bufZero = true := by
  unfold is_silent
  rw [show bufZero = List.replicate 72000 0 from rfl,
    meanSqNorm_replicate 72000 0 (by norm_num)]
  simp only [decide_eq_true_eq]
  norm_num

/-- On the loud state, the crashing oracle set makes the iteration
reach the speech-likeness stage, whose exception escapes. -/
theorem detectIter_oCrash :
    detectIter oCrash stLoud frameLoud = ([], .error "stage exception") := by
  simp [detectIter, detectCheck, stLoud, pushAll_bufLoud, is_silent_bufLoud,
    energy_bufLoud, full_bufLoud, oCrash]

/-- An iteration that ends in an exception ends the whole run: the
following frames are not processed. -/
theorem detectRun_cons_error {ε : Type} (o : StageFns ε) (st : DetectState)
    (f : List Int) (fs : List (List Int)) (ev : List OutEvent) (e : ε)
    (h : detectIter o st f = (ev, .error e)) :
    detectRun o st (f :: fs) = (ev, .error e) := by
  simp [detectRun, h]

/-- C4 counterexample: with a full loud pre-buffer and an oracle set
whose speech-likeness stage raises, the capture loop run over two
frames ends with the propagated exception after the first window; the
window is not treated as rejected and the second frame is never
processed — the claim that a stage exception does not terminate the
loop is false on the code (only `KeyboardInterrupt` is caught). -/
theorem C4_stage_exception_counterexample :
    detectRun oCrash stLoud [frameLoud, frameLoud] =
      ([], .error "stage exception") :=
  detectRun_cons_error oCrash stLoud frameLoud [frameLoud] []
    "stage exception" detectIter_oCrash

/-- C4 amended: an exception inside a pipeline stage propagates out of
the iteration and terminates the capture loop; the frames after the
erroring window are not processed. -/
theorem C4_stage_exception_terminates_loop {ε : Type} (o : StageFns ε)
    (st : DetectState) (f : List Int) (fs : List (List Int))
    (ev : List OutEvent) (e : ε)
    (h : detectIter o st f = (ev, .error e)) :
    detectRun o st (f :: fs) = (ev, .error e) :=
  detectRun_cons_error o st f fs ev e h

/-- Witness for the amended C4 at the concrete crashing input. -/
theorem C4_stage_exception_terminates_loop_witness :
    detectRun oCrash stLoud [frameLoud] = ([], .error "stage exception") :=
  C4_stage_exception_terminates_loop oCrash stLoud frameLoud [] []
    "stage exception" detectIter_oCrash

/-- C6: a rejection at any stage of the chain leaves the smoothing
window empty and skips the classifier.  Part one: for a window whose
RMS is below the silence threshold, the iteration continues with an
empty smoothing window and a result that is the same for every oracle
set — in particular `o.predict` is never consulted.  Part two: the same
holds whenever any stage of the chain rejects (silence, energy,
vibration tone, speech-likeness), given the values the earlier stages
returned. -/
theorem C6_rejection_clears_window_and_skips_classifier :
    (∀ (ε : Type) (o : StageFns ε) (st : DetectState) (f : List Int),
      8 ≤ st.frameCount + 1 →
      pre_buffer_size ≤ (pushAll pre_buffer_size st.preBuf f).length →
      st.cooldown = 0 →
      is_silent (pushAll pre_buffer_size st.preBuf f) = true →
      detectIter o st f =
        ([], .ok ⟨0, 0, [], pushAll pre_buffer_size st.preBuf f⟩)) ∧
    (∀ (ε : Type) (o : StageFns ε) (st : DetectState) (f : List Int)
        (a16 : List ℚ) (vib sc : Bool),
      8 ≤ st.frameCount + 1 →
      pre_buffer_size ≤ (pushAll pre_buffer_size st.preBuf f).length →
      st.cooldown = 0 →
      o.downsample (pushAll pre_buffer_size st.preBuf f) = .ok a16 →
      o.isVib a16 = .ok vib →
      o.speechChars a16 = .ok sc →
      (is_silent (pushAll pre_buffer_size st.preBuf f) = true ∨
        has_sufficient_energy (pushAll pre_buffer_size st.preBuf f) = false ∨
        vib = true ∨ sc = false) →
      detectIter o st f =
        ([], .ok ⟨0, 0, [], pushAll pre_buffer_size st.preBuf f⟩)) := by
  constructor
  · intro ε o st f h8 hlen hcd h1
    simp [detectIter, detectCheck, hcd, h8, hlen, h1]
  · intro ε o st f a16 vib sc h8 hlen hcd hdown hvib hsc hrej
    by_cases h1 : is_silent (pushAll pre_buffer_size st.preBuf f)
    · simp [detectIter, detectCheck, hcd, h8, hlen, h1]
    · by_cases h2 : has_sufficient_energy (pushAll pre_buffer_size st.preBuf f)
      · have hvs : vib = true ∨ sc = false := by
          rcases hrej with h | h | h | h
          · exact absurd h h1
          · exact absurd h (by simp [h2])
          · exact Or.inl h
          · exact Or.inr h
        by_cases h4 : vib
        · simp [detectIter, detectCheck, hcd, h8, hlen, h1, h2, hdown, hvib, h4]
        · have h3 : sc = false := by tauto
          simp [detectIter, detectCheck, hcd, h8, hlen, h1, h2, hdown, hvib, hsc, h3, h4]
      · simp [detectIter, detectCheck, hcd, h8, hlen, h1, h2]

/-- Witness for C6: on a silent full pre-buffer with concrete oracles,
the iteration continues with an empty smoothing window. -/
theorem C6_rejection_clears_window_and_skips_classifier_witness :
    detectIter oCrash stZero frameZero =
      ([], .ok ⟨0, 0, [], pushAll pre_buffer_size stZero.preBuf frameZero⟩) :=
  C6_rejection_clears_window_and_skips_classifier.1 String oCrash stZero frameZero
    (by norm_num [stZero])
    (by rw [show stZero.preBuf = bufZero from rfl, pushAll_bufZero]; exact full_bufZero)
    (by rfl)
    (by rw [show stZero.preBuf = bufZero from rfl, pushAll_bufZero]; exact is_silent_bufZero)

/-! The stdout line emitted by a trigger (C8). -/

/-- Pad a natural number below 1000 to three decimal digits. -/
def pad3 (n : Nat) : String :=
  if n < 10 then "00" ++ toString n
  else if n < 100 then "0" ++ toString n
  else toString n

/-- Fixed-point rendering with three decimals of a confidence in
`[0, 1]`, as CPython string formatting produces for the exact
multiples of `1/1000` that appear below. -/
def fmt3 (q : ℚ) : String :=
  let n := (round (q * 1000) : ℤ).toNat
  if 1000 ≤ n then "1." ++ pad3 (n - 1000) else "0." ++ pad3 n

/-- The line printed for a trigger: line 639 appends a literal
**(high confidence)** label after the confidence, line 655 a literal
**(consecutive)** label. -/
def serializeOut : OutEvent → String
  | .detected c b =>
    "DETECTED:" ++ fmt3 c ++ (if b then " (consecutive)" else " (high confidence)")

theorem fmt3_96 : fmt3 (96/100) = "0.960" := by
  have h1 : ((96 : ℚ)/100) * 1000 = ((960 : ℤ) : ℚ) := by norm_num
  rw [fmt3, h1, round_intCast]
  rfl

/-- On the loud state, the accepting oracle set scores `0.96`, which
takes the immediate high-confidence path: one detected event, cooldown
armed, pre-buffer and smoothing window cleared. -/
theorem detectIter_oTrig :
    detectIter oTrig stLoud frameLoud =
      ([.detected (96/100) false], .ok ⟨0, 10, [], []⟩) := by
  simp [detectIter, detectCheck, triggerDecision, stLoud, pushAll_bufLoud,
    is_silent_bufLoud, energy_bufLoud, full_bufLoud, oTrig]
  norm_num [HIGH_CONFIDENCE_THRESHOLD]

/-- C8 counterexample: a concrete trigger emits the line
`DETECTED:0.960 (high confidence)`, which is not of the form
`DETECTED:<confidence>` with nothing else on the line — the
path label follows the confidence. -/
theorem C8_detected_line_counterexample :
    detectIter oTrig stLoud frameLoud =
      ([.detected (96/100) false], .ok ⟨0, 10, [], []⟩) ∧
    serializeOut (.detected (96/100) false) = "DETECTED:0.960 (high confidence)" ∧
    "DETECTED:0.960 (high confidence)" ≠ "DETECTED:" ++ fmt3 (96/100) := by
  refine ⟨detectIter_oTrig, ?_, ?_⟩
  · show "DETECTED:" ++ fmt3 (96/100) ++ " (high confidence)" = _
    rw [fmt3_96]
    rfl
  · rw [fmt3_96]
    decide

/-- C8 amended: every loop iteration emits at most one line, and every
emitted line is `DETECTED:` followed by the reported confidence and a
path label, **(high confidence)** on the immediate path and
**(consecutive)** on the consecutive path (each line is printed with
`flush=True`; flushing is not modelled). -/
theorem triggerDecision_events {ε : Type} (o : StageFns ε) (cd : Nat)
    (w : List ℚ) (pb : List Int) (c : ℚ) (ev : List OutEvent)
    (r : Except ε DetectState)
    (h : triggerDecision o cd w pb c = (ev, r)) :
    ev = [] ∨ ∃ cc b, ev = [.detected cc b] := by
  simp only [triggerDecision] at h
  repeat' split at h
  all_goals injection h with h1 h2
  all_goals subst h1
  all_goals first
    | exact Or.inl rfl
    | exact Or.inr ⟨_, _, rfl⟩

theorem detectCheck_events {ε : Type} (o : StageFns ε) (cd : Nat)
    (w : List ℚ) (pb : List Int) (ev : List OutEvent)
    (r : Except ε DetectState)
    (h : detectCheck o cd w pb = (ev, r)) :
    ev = [] ∨ ∃ cc b, ev = [.detected cc b] := by
  unfold detectCheck at h
  repeat' split at h
  all_goals first
    | exact triggerDecision_events _ _ _ _ _ _ _ h
    | (injection h with h1 h2; subst h1; exact Or.inl rfl)

theorem C8_trigger_emits_one_labeled_line {ε : Type} (o : StageFns ε)
    (st : DetectState) (f : List Int) (ev : List OutEvent)
    (r : Except ε DetectState)
    (h : detectIter o st f = (ev, r)) :
    ev = [] ∨ ∃ c b, ev = [.detected c b] ∧
      serializeOut (.detected c b) = "DETECTED:" ++ fmt3 c ++
        (if b then " (consecutive)" else " (high confidence)") := by
  have he : ev = [] ∨ ∃ cc b, ev = [.detected cc b] := by
    simp only [detectIter] at h
    repeat' split at h
    all_goals first
      | exact detectCheck_events _ _ _ _ _ _ h
      | (injection h with h1 h2; subst h1; exact Or.inl rfl)
  rcases he with he | ⟨cc, b, he⟩
  · exact Or.inl he
  · exact Or.inr ⟨cc, b, he, rfl⟩

/-- Witness for the amended C8 at the concrete triggering input. -/
theorem C8_trigger_emits_one_labeled_line_witness :
    [OutEvent.detected (96/100) false] = [] ∨
      ∃ c b, [OutEvent.detected (96/100) false] = [.detected c b] ∧
        serializeOut (.detected c b) = "DETECTED:" ++ fmt3 c ++
          (if b then " (consecutive)" else " (high confidence)") :=
  C8_trigger_emits_one_labeled_line oTrig stLoud frameLoud
    [.detected (96/100) false] (.ok ⟨0, 10, [], []⟩) detectIter_oTrig

/-! The always-listening segment finalization (lines 543-591): when the
silence counter ends a speech segment, the captured buffer is passed
post hoc through Silero VAD and the vibration-tone rejection, and only
a segment surviving both is saved and reported with a
`SPEECH_SEGMENT:<confidence>` line carrying its wake-word score. -/

/-- A line printed while finalizing a segment: the protocol line
`SPEECH_SEGMENT:<confidence>` (line 589) or the debug rejection line
(line 584). -/
inductive SegEvent : Type
  | speechSegment (conf : ℚ)
  | rejectedDebug (reason : String)
deriving DecidableEq

/-- External stages of the post-hoc pipeline: `is_speech_silero` (the
Silero VAD verdict and probability), `downsample_for_detection`,
`is_vibration_sound` and the classifier score of
`model.predict(extract_features(...))`. -/
structure SegOracles : Type where
  vad : List Int → Bool × ℚ
  down : List Int → List ℚ
  isVib : List ℚ → Bool
  score : List ℚ → ℚ

/-- Outcome of finalizing one segment: the lines printed, whether
`save_recording` ran, and the final `wake_word_confidence` value. -/
structure SegResult : Type where
  outLines : List SegEvent
  saved : Bool
  confidence : ℚ
deriving DecidableEq

/-- Lines 548-591: nothing happens on an empty buffer; a segment the
VAD rejects is dropped with reason `non_speech`; a vibration-tone
segment is dropped with reason `vibration`; otherwise the segment is
scored, saved, and reported with its score. -/
def processSegment (o : SegOracles) (seg : List Int) : SegResult :=
  if seg.length = 0 then ⟨[], false, 0⟩
  else
    if (o.vad seg).1 = false then ⟨[.rejectedDebug "non_speech"], false, 0⟩
    else
      let a16 := o.down seg
      if o.isVib a16 then ⟨[.rejectedDebug "vibration"], false, 0⟩
      else
        let c := o.score a16
        ⟨[.speechSegment c], true, c⟩

/-- Whether a printed line is the `SPEECH_SEGMENT:` protocol line. -/
def isSpeechSegLine : SegEvent → Bool
  | .speechSegment _ => true
  | .rejectedDebug _ => false

/-- A VAD oracle that rejects everything. -/
def oVadReject : SegOracles :=
  { vad := fun _ => (false, 0), down := fun _ => [], isVib := fun _ => false,
    score := fun _ => 97/100 }

/-- Oracles that accept every segment and score `0.97`. -/
def oAccept : SegOracles :=
  { vad := fun _ => (true, 1), down := fun _ => [], isVib := fun _ => false,
    score := fun _ => 97/100 }

/-- C7 counterexample: a nonempty finalized segment rejected by the
post-hoc VAD is not reported at all — no `SPEECH_SEGMENT:` line (not
even one with confidence `0.000`) and no saved file; only the debug
rejection line is printed.  The claim that rejection does not gate
reporting is false on the code. -/
theorem C7_rejected_segment_not_reported_counterexample :
    processSegment oVadReject [1] = ⟨[.rejectedDebug "non_speech"], false, 0⟩ ∧
    (processSegment oVadReject [1]).outLines.countP isSpeechSegLine = 0 := by
  constructor <;> rfl

/-- C7 amended: a finalized segment is reported with a
`SPEECH_SEGMENT:<confidence>` line exactly when it is nonempty, passes
the post-hoc Silero VAD and is not the vibration tone; in that case the
reported confidence is the classifier score of the segment and the
segment is saved; a rejected segment is neither saved nor reported. -/
theorem C7_segment_reporting_gated_by_posthoc (o : SegOracles) (seg : List Int) :
    (processSegment o seg).saved =
      (seg.length != 0 && (o.vad seg).1 && !(o.isVib (o.down seg))) ∧
    (processSegment o seg).outLines.countP isSpeechSegLine =
      (if (seg.length != 0 && (o.vad seg).1 && !(o.isVib (o.down seg))) = true
        then 1 else 0) ∧
    (processSegment o seg).confidence =
      (if (seg.length != 0 && (o.vad seg).1 && !(o.isVib (o.down seg))) = true
        then o.score (o.down seg) else 0) := by
  unfold processSegment
  by_cases h0 : seg.length = 0
  · simp [h0, isSpeechSegLine]
  · by_cases h1 : (o.vad seg).1
    · by_cases h2 : o.isVib (o.down seg)
      · simp [h0, h1, h2, isSpeechSegLine]
      · simp [h0, h1, h2, isSpeechSegLine]
    · simp [h0, h1, isSpeechSegLine, Bool.not_eq_true]

/-- Witness for the amended C7 at a concrete rejected segment. -/
theorem C7_segment_reporting_gated_by_posthoc_witness :
    (processSegment oVadReject [1]).saved =
      (([1] : List Int).length != 0 && (oVadReject.vad [1]).1 &&
        !(oVadReject.isVib (oVadReject.down [1]))) ∧
    (processSegment oVadReject [1]).outLines.countP isSpeechSegLine =
      (if (([1] : List Int).length != 0 && (oVadReject.vad [1]).1 &&
          !(oVadReject.isVib (oVadReject.down [1]))) = true then 1 else 0) ∧
    (processSegment oVadReject [1]).confidence =
      (if (([1] : List Int).length != 0 && (oVadReject.vad [1]).1 &&
          !(oVadReject.isVib (oVadReject.down [1]))) = true
        then oVadReject.score (oVadReject.down [1]) else 0) :=
  C7_segment_reporting_gated_by_posthoc oVadReject [1]

/-! `is_impulsive_sound` (lines 287-357).  The function is defined in
the source but no call site exists anywhere in `unified_voice.py`; it
is embedded here to state C9.  The decision uses float square roots;
they are modelled as real square roots, and the two comparisons that
can be stated without a square root (`rms < 1e-6` and the length
guards) are stated on exact rationals.  The zero-crossing rate of
lines 315-316 is computed by the source but does not enter the
decision, so it is not modelled. -/

/-- `audio = np.array(audio_data) / 32768.0` (line 297). -/
def normalizeAudio (raw : List Int) : List ℚ :=
  raw.map (fun (s : Int) => (s : ℚ) / 32768)

/-- Mean of squares of a rational list (the square of the RMS of
line 303, and of the per-chunk energies of line 328). -/
def meanSqQ (a : List ℚ) : ℚ :=
  ((a.map (fun (x : ℚ) => x^2)).sum) / (a.length : ℚ)

/-- `peak = np.max(np.abs(audio))` (line 304). -/
def peakAbs (a : List ℚ) : ℚ :=
  (a.map (fun (x : ℚ) => |x|)).foldr max 0

/-- `chunk_size = int(0.01 * 48000) = 480` (line 320). -/
def impulseChunk : Nat := 480

/-- `chunk_energies` (lines 324-329): the RMS of each of the
`len(audio) // 480` consecutive 480-sample chunks. -/
noncomputable def chunkEnergies (a : List ℚ) : List ℝ :=
  (List.range (a.length / impulseChunk)).map
    (fun i =>
      Real.sqrt ((meanSqQ ((a.drop (i * impulseChunk)).take impulseChunk) : ℚ) : ℝ))

/-- `np.mean` over a real list. -/
noncomputable def meanR (l : List ℝ) : ℝ := l.sum / (l.length : ℝ)

/-- `np.std` (population standard deviation) over a real list. -/
noncomputable def stdR (l : List ℝ) : ℝ :=
  Real.sqrt (meanR (l.map (fun x => (x - meanR l)^2)))

/-- `crest_factor = peak / rms` (line 311). -/
noncomputable def crestFactor (a : List ℚ) : ℝ :=
  ((peakAbs a : ℚ) : ℝ) / Real.sqrt ((meanSqQ a : ℚ) : ℝ)

/-- `cv = np.std(chunk_energies) / mean_energy` (line 340). -/
noncomputable def cvOf (a : List ℚ) : ℝ :=
  stdR (chunkEnergies a) / meanR (chunkEnergies a)

/-- The decision of `is_impulsive_sound` (lines 287-357): too-short
windows are impulsive; near-silent windows are not (`rms < 1e-6`,
stated as `rms^2 < 1e-12`); otherwise impulsive when the crest factor
exceeds 8, or exceeds 6 with a coefficient of variation above 1.2, or
the coefficient of variation exceeds 1.5 — unless the mean chunk
energy is below `1e-6`, in which case the window is not impulsive. -/
def is_impulsive_sound (raw : List Int) : Prop :=
  let a := normalizeAudio raw
  if a.length < 100 then True
  else if meanSqQ a < 1/10^12 then False
  else if a.length < impulseChunk * 3 then True
  else if a.length / impulseChunk < 3 then True
  else
    ¬ (meanR (chunkEnergies a) < 1/10^6) ∧
      (8 < crestFactor a ∨ (6 < crestFactor a ∧ 12/10 < cvOf a) ∨
        3/2 < cvOf a)

/-- A 4320-sample window: a 30-sample spike of amplitude 16384 followed
by silence.  Its crest factor is 12, an impulsive transient. -/
def segSpike : List Int := List.replicate 30 16384 ++ List.replicate 4290 0

/-- `segSpike` after amplitude normalization. -/
def aSpike : List ℚ := List.replicate 30 (1/2) ++ List.replicate 4290 0

theorem take_replicate_eq {α : Type} (n k : Nat) (v : α) :
    (List.replicate n v).take k = List.replicate (min k n) v := by
  induction k generalizing n with
  | zero => simp
  | succ k ih =>
    cases n with
    | zero => simp
    | succ n =>
      show v :: (List.replicate n v).take k = _
      rw [ih n, Nat.succ_min_succ]
      rfl

theorem normalize_segSpike : normalizeAudio segSpike = aSpike := by
  unfold normalizeAudio segSpike aSpike
  rw [List.map_append, List.map_replicate, List.map_replicate]
  congr 1
  · congr 1
    norm_num
  · congr 1
    norm_num

theorem length_aSpike : aSpike.length = 4320 := by
  unfold aSpike
  rw [List.length_append, List.length_replicate, List.length_replicate]

theorem length_segSpike : segSpike.length = 4320 := by
  unfold segSpike
  rw [List.length_append, List.length_replicate, List.length_replicate]

theorem meanSqQ_replicate_append (m n : Nat) (x y : ℚ) :
    meanSqQ (List.replicate m x ++ List.replicate n y) =
      ((m : ℚ) * x^2 + (n : ℚ) * y^2) / ((m : ℚ) + (n : ℚ)) := by
  unfold meanSqQ
  rw [List.map_append, List.map_replicate, List.map_replicate, List.sum_append,
    List.sum_replicate, List.sum_replicate, List.length_append,
    List.length_replicate, List.length_replicate, nsmul_eq_mul, nsmul_eq_mul]
  push_cast
  rfl

theorem meanSq_aSpike : meanSqQ aSpike = 1/576 := by
  unfold aSpike
  rw [meanSqQ_replicate_append]
  norm_num

theorem le_peakAbs (a : List ℚ) (x : ℚ) (hx : x ∈ a) : |x| ≤ peakAbs a := by
  unfold peakAbs
  induction a with
  | nil => cases hx
  | cons y t ih =>
    rw [List.map_cons, List.foldr_cons]
    rcases List.mem_cons.mp hx with h | h
    · subst h
      exact le_max_left _ _
    · exact le_trans (ih h) (le_max_right _ _)

theorem half_le_peak_aSpike : (1/2 : ℚ) ≤ peakAbs aSpike := by
  have hmem : (1/2 : ℚ) ∈ aSpike := by
    unfold aSpike
    exact List.mem_append_left _ (List.mem_replicate.mpr ⟨by norm_num, rfl⟩)
  have h := le_peakAbs aSpike (1/2) hmem
  rw [show |(1/2 : ℚ)| = 1/2 from by norm_num] at h
  exact h

theorem numChunks_aSpike : aSpike.length / impulseChunk = 9 := by
  rw [length_aSpike]
  norm_num [impulseChunk]

theorem take480_aSpike :
    aSpike.take impulseChunk =
      List.replicate 30 (1/2 : ℚ) ++ List.replicate 450 0 := by
  unfold aSpike
  rw [List.take_append_eq_append_take, take_replicate_eq, take_replicate_eq,
    List.length_replicate,
    show min impulseChunk 30 = 30 from by norm_num [impulseChunk],
    show min (impulseChunk - 30) 4290 = 450 from by norm_num [impulseChunk]]

theorem sqrt_ratCast_eq (q : ℚ) (c : ℝ) (h : (q : ℝ) = c^2) (hc : 0 ≤ c) :
    Real.sqrt (q : ℝ) = c := by
  rw [h, Real.sqrt_sq hc]

theorem chunk0_energy :
    Real.sqrt ((meanSqQ ((aSpike.drop (0 * impulseChunk)).take impulseChunk) : ℚ) : ℝ) =
      1/8 := by
  rw [Nat.zero_mul, List.drop_zero, take480_aSpike, meanSqQ_replicate_append]
  exact sqrt_ratCast_eq _ _ (by push_cast; norm_num) (by norm_num)

theorem mean_chunkEnergies_aSpike_lb : (1/72 : ℝ) ≤ meanR (chunkEnergies aSpike) := by
  have hlen : (chunkEnergies aSpike).length = 9 := by
    unfold chunkEnergies
    rw [List.length_map, List.length_range, numChunks_aSpike]
  have hmem : (1/8 : ℝ) ∈ chunkEnergies aSpike := by
    unfold chunkEnergies
    rw [numChunks_aSpike]
    exact List.mem_map.mpr ⟨0, List.mem_range.mpr (by norm_num), chunk0_energy⟩
  have hnn : ∀ x ∈ chunkEnergies aSpike, (0:ℝ) ≤ x := by
    intro x hx
    rcases List.mem_map.mp hx with ⟨i, _, hi⟩
    rw [← hi]
    exact Real.sqrt_nonneg _
  have hsum : (1/8 : ℝ) ≤ (chunkEnergies aSpike).sum :=
    List.single_le_sum hnn _ hmem
  unfold meanR
  rw [hlen]
  rw [show ((9 : Nat) : ℝ) = 9 from by norm_num, le_div_iff₀ (by norm_num : (0:ℝ) < 9)]
  linarith

theorem crest_aSpike : (8 : ℝ) < crestFactor aSpike := by
  unfold crestFactor
  rw [meanSq_aSpike]
  have hs : Real.sqrt ((1/576 : ℚ) : ℝ) = 1/24 := by
    have h : ((1/576 : ℚ) : ℝ) = (1/24 : ℝ)^2 := by norm_num
    rw [h, Real.sqrt_sq (by norm_num)]
  rw [hs]
  have hp0 : ((1/2 : ℚ) : ℝ) ≤ ((peakAbs aSpike : ℚ) : ℝ) :=
    Rat.cast_le.mpr half_le_peak_aSpike
  have hp : (1/2 : ℝ) ≤ ((peakAbs aSpike : ℚ) : ℝ) := by
    rw [show ((1/2 : ℚ) : ℝ) = (1/2 : ℝ) from by norm_num] at hp0
    exact hp0
  rw [div_eq_mul_inv, show ((1:ℝ)/24)⁻¹ = 24 from by norm_num]
  linarith

/-- The spike window is impulsive by the crest-factor test. -/
theorem impulsive_segSpike : is_impulsive_sound segSpike := by
  simp only [is_impulsive_sound, normalize_segSpike]
  rw [if_neg (by rw [length_aSpike]; norm_num),
    if_neg (by rw [meanSq_aSpike]; norm_num),
    if_neg (by rw [length_aSpike]; norm_num [impulseChunk]),
    if_neg (by rw [numChunks_aSpike]; norm_num)]
  exact ⟨not_lt.mpr (le_trans (by norm_num) mean_chunkEnergies_aSpike_lb),
    Or.inl crest_aSpike⟩

attribute [irreducible] is_impulsive_sound

/-- C9 counterexample: the impulsive rejection stage is never applied —
no call to `is_impulsive_sound` exists in the script.  The spike window
is impulsive (crest factor 12 > 8), yet when it passes the stages that
continuous mode actually applies (Silero VAD and vibration rejection)
it is scored, saved and reported rather than rejected before feature
extraction and scoring. -/
theorem C9_impulsive_window_scored_counterexample :
    is_impulsive_sound segSpike ∧
    processSegment oAccept segSpike = ⟨[.speechSegment (97/100)], true, 97/100⟩ := by
  refine ⟨impulsive_segSpike, ?_⟩
  unfold processSegment
  rw [if_neg (by rw [length_segSpike]; norm_num)]
  rfl

/-- C9 amended: `is_impulsive_sound` (crest factor above 8, or above 6
with a coefficient of variation above 1.2, or a coefficient of
variation above 1.5) is defined but never invoked; in continuous mode a
nonempty finalized segment that passes the Silero VAD and the
vibration-tone rejection is scored and reported even when it is
impulsive. -/
theorem C9_impulsive_rejection_never_applied (o : SegOracles) (seg : List Int)
    (_himp : is_impulsive_sound seg) (h0 : seg.length ≠ 0)
    (hv : (o.vad seg).1 = true) (hb : o.isVib (o.down seg) = false) :
    processSegment o seg =
      ⟨[.speechSegment (o.score (o.down seg))], true, o.score (o.down seg)⟩ := by
  simp [processSegment, h0, hv, hb]

/-- Witness for the amended C9 at the concrete impulsive window. -/
theorem C9_impulsive_rejection_never_applied_witness :
    processSegment oAccept segSpike =
      ⟨[.speechSegment (oAccept.score (oAccept.down segSpike))], true,
        oAccept.score (oAccept.down segSpike)⟩ :=
  C9_impulsive_rejection_never_applied oAccept segSpike impulsive_segSpike
    (by rw [length_segSpike]; norm_num) rfl rfl
